import Mathlib

/-!
Shallow embedding of the CubeSatMissionPlanner core: the TLE element-set
lifecycle of PlanningObjects/Satellite.py (createEarthSatellite,
fetchTLEData, saveTLEData), the propagation time grid and position
series of Satellite.calculateSatellitePositions, and the timeline data
model of Utilities/Objects.py (Schedule, Eclipse).

Time quantities are exact rationals; datetimes are modelled as a whole
number of minutes since an epoch together with the sub-minute seconds
remainder, because the code builds its time grid from the datetime
fields year/month/day/hour/minute only.  The third-party propagation
backend (skyfield) is modelled as an abstract function from an instant
to a geodetic sample, following the OrbitalModel capability of the spec.
-/

namespace CubeSat

/-! ### Satellite.fetchTLEData (Satellite.py lines 84-113) -/

/-- Outcome of the HTTP GET in fetchTLEData: either a raised
requests exception (timeout or non-2xx status, both end up in the
except branch), or a response body already split into lines, as
response.text.splitlines() produces it. -/
inductive NetResult where
  | failure : NetResult
  | success : List String → NetResult
deriving DecidableEq

/-- Python str.strip with no argument: remove leading and trailing
whitespace characters. -/
def pyStrip (s : String) : String :=
  ⟨((s.data.dropWhile Char.isWhitespace).reverse.dropWhile Char.isWhitespace).reverse⟩

/-- The chunking of the list comprehension
tle_data[i:i+3] for i in range(0, len(tle_data), 3):
consecutive groups of three lines (the last group may be shorter). -/
def chunk3 : List String → List (List String)
  | [] => []
  | [a] => [[a]]
  | [a, b] => [[a, b]]
  | a :: b :: c :: rest => [a, b, c] :: chunk3 rest

/-- Satellite.fetchTLEData.  The satellite_name attribute of the object
is in scope (passed here as a parameter) but the source never consults
it: the filter compares each group head against the literal string
CUTE.  On a requests exception, or when no group matches, the caught
exception leads to returning the empty list. -/
def fetchTLEData (_satellite_name : String) (net : NetResult) : List String :=
  match net with
  | .failure => []
  | .success tle_data =>
    let tle_lines := (chunk3 tle_data).filter (fun g => pyStrip (g.headD "") == "CUTE")
    match tle_lines with
    | [] => []
    | g :: _ => g

/-- Satellite.saveTLEData (lines 115-126): opens the cache file in
write mode, so the new content replaces whatever was there; the
resulting file holds exactly the given lines. -/
def saveTLEData (tle_lines : List String) : Option (List String) :=
  some tle_lines

/-! ### Satellite.createEarthSatellite (Satellite.py lines 60-82) -/

/-- Observable outcome of one run of createEarthSatellite: the value
returned to the caller (or the unhandled exception load.tle_file raises
on a missing file), the cache file content afterwards, and whether the
network fetch and the cache write happened. -/
structure CESResult where
  result : Except String (List String)
  cacheAfter : Option (List String)
  fetched : Bool
  saved : Bool

/-- Satellite.createEarthSatellite.  The cache file state is passed
explicitly: cache is its content (none when load.exists is false) and
ageDays is load.days_old of the file, in days.  The guard mirrors
line 72: fetch when the file is missing or at least max_age_days = 10
days old; on a nonempty fetch result the file is overwritten via
saveTLEData; finally load.tle_file reads the file, which raises when
the file does not exist. -/
def createEarthSatellite (satellite_name : String) (net : NetResult)
    (cache : Option (List String)) (ageDays : ℚ) : CESResult :=
  let max_age_days : ℚ := 10
  let doFetch : Bool := !cache.isSome || decide (max_age_days ≤ ageDays)
  let tle_lines := if doFetch then fetchTLEData satellite_name net else []
  let didSave : Bool := doFetch && !tle_lines.isEmpty
  let cacheAfter := if didSave then saveTLEData tle_lines else cache
  let result : Except String (List String) :=
    match cacheAfter with
    | none => .error "file not found"
    | some content => .ok content
  ⟨result, cacheAfter, doFetch, didSave⟩

/-! ### Satellite.calculateSatellitePositions (Satellite.py lines 128-166) -/

/-- A datetime, split the way the code consumes it: the whole minutes
since an epoch (collapsing year, month, day, hour, minute) and the
remaining seconds-within-the-minute (second and microsecond fields),
which line 151 never passes to ts.utc. -/
structure DateTime where
  minutes : ℤ
  sec : ℚ
deriving DecidableEq

/-- The instant a DateTime denotes, in seconds since the epoch. -/
def DateTime.toSeconds (d : DateTime) : ℚ := d.minutes * 60 + d.sec

/-- The instant obtained from a DateTime after dropping its sub-minute
part, which is what ts.utc(year, month, day, hour, minute + ...) uses
as the base of the grid. -/
def DateTime.baseSeconds (d : DateTime) : ℚ := d.minutes * 60

/-- Python int() applied to a rational: truncation toward zero. -/
def pyInt (q : ℚ) : ℤ := if 0 ≤ q then ⌊q⌋ else -⌊-q⌋

/-- The time points of lines 147-152: num_steps is
int(total_seconds / time_step) + 1 and entry i sits at
minute-truncated start plus i * time_step seconds (the offset array is
np.arange(num_steps) * time_step / 60 fractional minutes).
np.arange of a non-positive count is empty, hence Int.toNat. -/
def timeGrid (start_time end_time : DateTime) (time_step : ℚ) : List ℚ :=
  let total_seconds := end_time.toSeconds - start_time.toSeconds
  let num_steps := pyInt (total_seconds / time_step) + 1
  (List.range num_steps.toNat).map (fun i : ℕ => start_time.baseSeconds + (i : ℚ) * time_step)

/-- A float as the position arrays may hold it: an actual (finite)
value, or one of the IEEE non-finite outcomes. -/
inductive FloatVal where
  | finite : ℚ → FloatVal
  | nan : FloatVal
  | inf : FloatVal
  | neginf : FloatVal
deriving DecidableEq

/-- One geodetic subpoint sample: wgs84.subpoint latitude and longitude
in degrees and elevation in kilometers. -/
structure GeoSample where
  lat : FloatVal
  lon : FloatVal
  alt : FloatVal
deriving DecidableEq

/-- The position attributes the method stores on the Satellite object. -/
structure SatState where
  latitudes : List FloatVal
  longitudes : List FloatVal
  altitudes : List FloatVal
  times : List ℚ
deriving DecidableEq

/-- Satellite.calculateSatellitePositions.  The skyfield pipeline
earth_satellite.at followed by wgs84.subpoint is abstracted as
position_at, applied elementwise to the time array; the method stores
the four arrays and raises nothing itself.  A zero time_step makes
line 148 divide by zero, the only failure the method can produce on
its own. -/
def calculateSatellitePositions (position_at : ℚ → GeoSample)
    (start_time end_time : DateTime) (time_step : ℚ) : Except String SatState :=
  if time_step = 0 then .error "division by zero"
  else
    let times := timeGrid start_time end_time time_step
    .ok { latitudes := times.map (fun t => (position_at t).lat)
          longitudes := times.map (fun t => (position_at t).lon)
          altitudes := times.map (fun t => (position_at t).alt)
          times := times }

/-! ### Utilities/Objects.py: Schedule (lines 353-403) and Eclipse (lines 286-336) -/

/-- The Schedule object: the six attributes the constructor stores.
The status_enum dict is an association list of code/meaning pairs. -/
structure Schedule where
  start_time : ℚ
  end_time : ℚ
  time_step_sec : ℚ
  time : List ℚ
  status : List ℤ
  status_enum : List (ℤ × String)
deriving DecidableEq

/-- Schedule.__init__ (lines 373-403): assigns the six parameters to
the attributes of the same names and does nothing else. -/
def scheduleInit (start_time end_time : ℚ) (time_step_sec : ℚ) (time : List ℚ)
    (status : List ℤ) (status_enum : List (ℤ × String)) : Schedule :=
  ⟨start_time, end_time, time_step_sec, time, status, status_enum⟩

/-- Membership of a status code among the keys of a status_enum dict. -/
def isKey (k : ℤ) (status_enum : List (ℤ × String)) : Bool :=
  status_enum.any (fun p => p.fst == k)

/-- The Eclipse object: the six attributes the constructor stores.
operations holds the parent Schedule by reference. -/
structure Eclipse where
  eclipse_number : ℤ
  targets_available : List (String × ℤ)
  targets_names : List String
  targets_exp_times : List ℤ
  schedule_indices : List ℤ
  operations : Schedule
deriving DecidableEq

/-- Eclipse.__init__ (lines 306-336): assigns the six parameters to
the attributes of the same names and does nothing else. -/
def eclipseInit (eclipse_number : ℤ) (targets_available : List (String × ℤ))
    (targets_names : List String) (targets_exp_times : List ℤ)
    (schedule_indices : List ℤ) (operations : Schedule) : Eclipse :=
  ⟨eclipse_number, targets_available, targets_names, targets_exp_times,
    schedule_indices, operations⟩

/-! ### Concrete fixtures used by counterexamples and witnesses -/

/-- A subpoint model returning the finite sample (0, 0, 550) at every
instant. -/
def constSample : ℚ → GeoSample :=
  fun _ => ⟨.finite 0, .finite 0, .finite 550⟩

/-- A subpoint model returning NaN in every component. -/
def nanSample : ℚ → GeoSample :=
  fun _ => ⟨.nan, .nan, .nan⟩

/-- The position state of a two-point run of
calculateSatellitePositions under constSample, starting on a whole
minute with a 60 second horizon and step. -/
def twoPointState : SatState :=
  ⟨[.finite 0, .finite 0], [.finite 0, .finite 0],
    [.finite 550, .finite 550], [0, 60]⟩

/-- The numeric-range requirement of the spec on a stored latitude:
a finite value between -90 and 90 degrees. -/
def latOK : FloatVal → Prop
  | .finite q => -90 ≤ q ∧ q ≤ 90
  | _ => False

/-- The numeric-range requirement of the spec on a stored longitude:
a finite value in the signed interval (-180, 180]. -/
def lonOK : FloatVal → Prop
  | .finite q => -180 < q ∧ q ≤ 180
  | _ => False

/-- A ten-slot schedule over 0..540 seconds at 60 s cadence, every slot
idle. -/
def sched10 : Schedule :=
  ⟨0, 540, 60, [0, 60, 120, 180, 240, 300, 360, 420, 480, 540],
    [0, 0, 0, 0, 0, 0, 0, 0, 0, 0], [(0, "idle"), (1, "eclipse")]⟩

/-! ### Helper lemmas -/

/-- Truncation toward zero agrees with the floor on nonnegative
rationals. -/
theorem pyInt_of_nonneg (q : ℚ) (h : 0 ≤ q) : pyInt q = ⌊q⌋ := if_pos h

/-- The zeta-reduced form of timeGrid. -/
theorem timeGrid_expand (s e : DateTime) (st : ℚ) :
    timeGrid s e st
      = (List.range (pyInt ((e.toSeconds - s.toSeconds) / st) + 1).toNat).map
          (fun i : ℕ => s.baseSeconds + (i : ℚ) * st) := rfl

/-- The raw point count of the grid, before any sign analysis. -/
theorem timeGrid_length (s e : DateTime) (step : ℚ) :
    (timeGrid s e step).length
      = (pyInt ((e.toSeconds - s.toSeconds) / step) + 1).toNat := by
  simp only [timeGrid, List.length_map, List.length_range]

/-- Pointwise description of the grid. -/
theorem timeGrid_getElem (s e : DateTime) (step : ℚ) (i : ℕ)
    (h : i < (timeGrid s e step).length) :
    (timeGrid s e step)[i] = s.baseSeconds + i * step := by
  simp only [timeGrid, List.getElem_map, List.getElem_range]

/-- Concrete grid for a start instant 30 seconds past the minute. -/
theorem tg_eval_halfmin : timeGrid ⟨0, 30⟩ ⟨2, 30⟩ 60 = [0, 60, 120] := by
  rw [timeGrid_expand]
  have h : pyInt ((DateTime.toSeconds ⟨2, 30⟩ - DateTime.toSeconds ⟨0, 30⟩) / 60) + 1 = 3 := by
    norm_num [pyInt, DateTime.toSeconds]
  rw [h]
  have h2 : (3 : ℤ).toNat = 3 := rfl
  rw [h2, List.range_succ, List.range_succ, List.range_succ, List.range_zero]
  simp [DateTime.baseSeconds]
  norm_num

/-- Concrete grid for a degenerate window whose end equals its start. -/
theorem tg_eval_single : timeGrid ⟨0, 0⟩ ⟨0, 0⟩ 60 = [0] := by
  rw [timeGrid_expand]
  have h : pyInt ((DateTime.toSeconds ⟨0, 0⟩ - DateTime.toSeconds ⟨0, 0⟩) / 60) + 1 = 1 := by
    norm_num [pyInt, DateTime.toSeconds]
  rw [h]
  have h2 : (1 : ℤ).toNat = 1 := rfl
  rw [h2, List.range_succ, List.range_zero]
  simp [DateTime.baseSeconds]

/-- Concrete grid for a one-minute window at 60 second cadence. -/
theorem tg_eval_two : timeGrid ⟨0, 0⟩ ⟨1, 0⟩ 60 = [0, 60] := by
  rw [timeGrid_expand]
  have h : pyInt ((DateTime.toSeconds ⟨1, 0⟩ - DateTime.toSeconds ⟨0, 0⟩) / 60) + 1 = 2 := by
    norm_num [pyInt, DateTime.toSeconds]
  rw [h]
  have h2 : (2 : ℤ).toNat = 2 := rfl
  rw [h2, List.range_succ, List.range_succ, List.range_zero]
  simp [DateTime.baseSeconds]

/-- Concrete two-point propagation run under the constant in-range
subpoint model. -/
theorem calc_eval_two :
    calculateSatellitePositions constSample ⟨0, 0⟩ ⟨1, 0⟩ 60 = .ok twoPointState := by
  simp only [calculateSatellitePositions]
  rw [if_neg (by norm_num)]
  rw [tg_eval_two]
  simp [constSample, twoPointState]

/-! ### Claim C1 -/

/-- Claim C1, counterexample: with a stale cache file present (age 15
days) and a failing network fetch, createEarthSatellite does not fail
at all: the fetch error is swallowed inside fetchTLEData and the stale
cache content is returned to the caller, so the operation does not
raise a hard DataUnavailable error whenever the fetch fails. -/
theorem createEarthSatellite_stale_fallback_counterexample :
    (createEarthSatellite "CUTE" .failure (some ["CUTE", "L1", "L2"]) 15).fetched = true ∧
    (createEarthSatellite "CUTE" .failure (some ["CUTE", "L1", "L2"]) 15).result
      = .ok ["CUTE", "L1", "L2"] := by
  constructor <;> norm_num [createEarthSatellite, fetchTLEData]

/-- Claim C1, amended: when the fetch fails or no record matches,
fetchTLEData returns the empty list and the error is only printed;
createEarthSatellite then loads whatever cache file there is, so the
run ends in an unhandled file-access error exactly when the cache file
is missing (hence the caller never receives a silently empty element
set in that case), and silently returns the existing (possibly stale)
cache content when the file exists. -/
theorem fetchFailure_fallsBackToCache (satellite_name : String) (net : NetResult)
    (c : List String) (age : ℚ)
    (hfail : fetchTLEData satellite_name net = []) :
    (createEarthSatellite satellite_name net none age).result = .error "file not found" ∧
    (createEarthSatellite satellite_name net (some c) age).result = .ok c := by
  constructor <;> simp [createEarthSatellite, hfail]

/-- Claim C1, witness for the amended theorem at a concrete failing
fetch. -/
theorem fetchFailure_fallsBackToCache_witness :
    fetchTLEData "CUTE" NetResult.failure = [] ∧
    ((createEarthSatellite "CUTE" NetResult.failure none 0).result
        = .error "file not found" ∧
     (createEarthSatellite "CUTE" NetResult.failure (some ["CUTE", "L1", "L2"]) 0).result
        = .ok ["CUTE", "L1", "L2"]) :=
  ⟨rfl, fetchFailure_fallsBackToCache "CUTE" NetResult.failure ["CUTE", "L1", "L2"] 0 rfl⟩

/-! ### Claim C2 -/

/-- Claim C2: the selection filter compares each record head against
the literal string CUTE, never against the satellite_name attribute.
At the failing input satellite_name MANTIS, with a payload holding a
MANTIS record followed by a CUTE record, the fetch returns the CUTE
record although a record whose name line equals the requested name
exactly is present. -/
theorem fetchTLEData_ignores_requested_name :
    fetchTLEData "MANTIS" (.success ["MANTIS", "1 A", "2 A", "CUTE", "1 B", "2 B"])
      = ["CUTE", "1 B", "2 B"] ∧
    pyStrip "MANTIS" = "MANTIS" ∧ ("CUTE" : String) ≠ "MANTIS" := by
  refine ⟨by decide, by decide, by decide⟩

/-! ### Claim C3 -/

/-- Claim C3: createEarthSatellite performs the network fetch exactly
when the cache file is missing or its age is at least the maximum age
of 10 days; a cache file strictly younger is loaded directly with no
fetch, no write, and its content returned; ages one second past and
one second short of the 10 day bound fall on the stale and fresh side
respectively. -/
theorem createEarthSatellite_staleness_policy (satellite_name : String)
    (net : NetResult) (c : List String) (age : ℚ) :
    (createEarthSatellite satellite_name net none age).fetched = true ∧
    ((createEarthSatellite satellite_name net (some c) age).fetched = true ↔ 10 ≤ age) ∧
    (age < 10 →
      (createEarthSatellite satellite_name net (some c) age).fetched = false ∧
      (createEarthSatellite satellite_name net (some c) age).result = .ok c ∧
      (createEarthSatellite satellite_name net (some c) age).cacheAfter = some c) ∧
    (createEarthSatellite satellite_name net (some c) (10 + 1/86400)).fetched = true ∧
    (createEarthSatellite satellite_name net (some c) (10 - 1/86400)).fetched = false := by
  refine ⟨by simp [createEarthSatellite], by simp [createEarthSatellite], ?_, ?_, ?_⟩
  · intro hage
    have hd : ¬ (10 : ℚ) ≤ age := not_le.mpr hage
    simp [createEarthSatellite, hd]
  · have h : (10 : ℚ) ≤ 10 + 1/86400 := by norm_num
    simp [createEarthSatellite, h]
  · have h : ¬ (10 : ℚ) ≤ 10 - 1/86400 := by norm_num
    simp [createEarthSatellite, h]

/-- Claim C3, witness: a fresh cache file of age 5 days is returned
directly with no fetch and no write. -/
theorem createEarthSatellite_staleness_policy_witness :
    (5 : ℚ) < 10 ∧
    ((createEarthSatellite "CUTE" NetResult.failure (some ["CUTE", "L1", "L2"]) 5).fetched
        = false ∧
     (createEarthSatellite "CUTE" NetResult.failure (some ["CUTE", "L1", "L2"]) 5).result
        = .ok ["CUTE", "L1", "L2"] ∧
     (createEarthSatellite "CUTE" NetResult.failure (some ["CUTE", "L1", "L2"]) 5).cacheAfter
        = some ["CUTE", "L1", "L2"]) :=
  ⟨by norm_num,
    (createEarthSatellite_staleness_policy "CUTE" NetResult.failure
      ["CUTE", "L1", "L2"] 5).2.2.1 (by norm_num)⟩

/-! ### Claim C10 -/

/-- Claim C10: whenever fetchTLEData comes back empty (network error
or no matching record), saveTLEData is never invoked and the cache
file content is exactly what it was before the call. -/
theorem emptyFetch_preserves_cache (satellite_name : String) (net : NetResult)
    (cache : Option (List String)) (age : ℚ)
    (hfail : fetchTLEData satellite_name net = []) :
    (createEarthSatellite satellite_name net cache age).saved = false ∧
    (createEarthSatellite satellite_name net cache age).cacheAfter = cache := by
  constructor <;> simp [createEarthSatellite, hfail]

/-- Claim C10, witness: a failing fetch over a stale three-line cache
leaves the cache untouched. -/
theorem emptyFetch_preserves_cache_witness :
    fetchTLEData "CUTE" NetResult.failure = [] ∧
    ((createEarthSatellite "CUTE" NetResult.failure (some ["OLD1", "OLD2", "OLD3"]) 15).saved
        = false ∧
     (createEarthSatellite "CUTE" NetResult.failure (some ["OLD1", "OLD2", "OLD3"]) 15).cacheAfter
        = some ["OLD1", "OLD2", "OLD3"]) :=
  ⟨rfl, emptyFetch_preserves_cache "CUTE" NetResult.failure
    (some ["OLD1", "OLD2", "OLD3"]) 15 rfl⟩

/-! ### Claim C4 -/

/-- Claim C4, counterexample: for a start instant 30 seconds past the
whole minute, the first grid point is the whole minute (second 0), not
the start instant (second 30): ts.utc is called without the second
field of the start datetime. -/
theorem timeGrid_first_point_counterexample :
    (timeGrid ⟨0, 30⟩ ⟨2, 30⟩ 60).head? = some 0 ∧
    DateTime.toSeconds ⟨0, 30⟩ = 30 ∧ ((0 : ℚ) ≠ 30) ∧
    (timeGrid ⟨0, 30⟩ ⟨2, 30⟩ 60).length = 3 := by
  rw [tg_eval_halfmin]
  norm_num [DateTime.toSeconds]

/-- Claim C4, amended: for end after start and positive step, the grid
has exactly floor((end - start) / step) + 1 points, its first point is
the start instant truncated to the whole minute (equal to start
exactly when start carries no sub-minute seconds), consecutive points
are step seconds apart, and no point exceeds the end instant. -/
theorem timeGrid_count_spacing_bound (s e : DateTime) (step : ℚ)
    (hsec : 0 ≤ s.sec) (hstep : 0 < step) (hlt : s.toSeconds < e.toSeconds) :
    (timeGrid s e step).length = (⌊(e.toSeconds - s.toSeconds) / step⌋).toNat + 1 ∧
    (timeGrid s e step).head? = some s.baseSeconds ∧
    (∀ (i : ℕ) (h : i < (timeGrid s e step).length),
      (timeGrid s e step)[i] = s.baseSeconds + i * step) ∧
    (∀ (i : ℕ) (h : i + 1 < (timeGrid s e step).length),
      (timeGrid s e step)[i + 1] - (timeGrid s e step)[i] = step) ∧
    (∀ t ∈ timeGrid s e step, t ≤ e.toSeconds) := by
  have htot : 0 < e.toSeconds - s.toSeconds := by linarith
  have hq : 0 ≤ (e.toSeconds - s.toSeconds) / step := by positivity
  have hfl : 0 ≤ ⌊(e.toSeconds - s.toSeconds) / step⌋ := Int.floor_nonneg.mpr hq
  have hlen : (timeGrid s e step).length
      = (⌊(e.toSeconds - s.toSeconds) / step⌋).toNat + 1 := by
    rw [timeGrid_length, pyInt_of_nonneg _ hq]
    omega
  refine ⟨hlen, ?_, ?_, ?_, ?_⟩
  · have hpos : 0 < (timeGrid s e step).length := by omega
    rw [List.head?_eq_getElem?, List.getElem?_eq_getElem hpos, timeGrid_getElem]
    simp
  · intro i h
    exact timeGrid_getElem s e step i h
  · intro i h
    rw [timeGrid_getElem, timeGrid_getElem]
    push_cast
    ring
  · intro t ht
    simp only [timeGrid, List.mem_map, List.mem_range] at ht
    obtain ⟨i, hi, rfl⟩ := ht
    rw [pyInt_of_nonneg _ hq] at hi
    have hile : (i : ℤ) ≤ ⌊(e.toSeconds - s.toSeconds) / step⌋ := by omega
    have h1 : (i : ℚ) ≤ ⌊(e.toSeconds - s.toSeconds) / step⌋ := by exact_mod_cast hile
    have h2 : (⌊(e.toSeconds - s.toSeconds) / step⌋ : ℚ)
        ≤ (e.toSeconds - s.toSeconds) / step := Int.floor_le _
    have h3 : (i : ℚ) * step ≤ ((e.toSeconds - s.toSeconds) / step) * step :=
      mul_le_mul_of_nonneg_right (le_trans h1 h2) (le_of_lt hstep)
    rw [div_mul_cancel₀ _ (ne_of_gt hstep)] at h3
    have hbase : s.baseSeconds = s.toSeconds - s.sec := by
      simp [DateTime.baseSeconds, DateTime.toSeconds]
    rw [hbase]
    linarith

/-- Claim C4, witness: a 90 second window starting on a whole minute
at 60 second cadence. -/
theorem timeGrid_count_spacing_bound_witness :
    ((0 : ℚ) ≤ (DateTime.mk 0 0).sec ∧ (0 : ℚ) < 60 ∧
      DateTime.toSeconds ⟨0, 0⟩ < DateTime.toSeconds ⟨1, 30⟩) ∧
    ((timeGrid ⟨0, 0⟩ ⟨1, 30⟩ 60).length
        = (⌊(DateTime.toSeconds ⟨1, 30⟩ - DateTime.toSeconds ⟨0, 0⟩) / 60⌋).toNat + 1 ∧
     (timeGrid ⟨0, 0⟩ ⟨1, 30⟩ 60).head? = some (DateTime.baseSeconds ⟨0, 0⟩) ∧
     (∀ (i : ℕ) (h : i < (timeGrid ⟨0, 0⟩ ⟨1, 30⟩ 60).length),
       (timeGrid ⟨0, 0⟩ ⟨1, 30⟩ 60)[i] = DateTime.baseSeconds ⟨0, 0⟩ + i * 60) ∧
     (∀ (i : ℕ) (h : i + 1 < (timeGrid ⟨0, 0⟩ ⟨1, 30⟩ 60).length),
       (timeGrid ⟨0, 0⟩ ⟨1, 30⟩ 60)[i + 1] - (timeGrid ⟨0, 0⟩ ⟨1, 30⟩ 60)[i] = 60) ∧
     (∀ t ∈ timeGrid ⟨0, 0⟩ ⟨1, 30⟩ 60, t ≤ DateTime.toSeconds ⟨1, 30⟩)) :=
  ⟨⟨le_refl 0, by norm_num, by norm_num [DateTime.toSeconds]⟩,
    timeGrid_count_spacing_bound ⟨0, 0⟩ ⟨1, 30⟩ 60 (le_refl 0) (by norm_num)
      (by norm_num [DateTime.toSeconds])⟩

/-! ### Claim C7 -/

/-- Claim C7, counterexample: with end equal to start (a violation of
the end-after-start precondition) and a 60 second step, the method
does not raise anything: it succeeds and produces a one-point grid and
one stored sample per array. -/
theorem calculatePositions_no_validation_counterexample :
    calculateSatellitePositions constSample ⟨0, 0⟩ ⟨0, 0⟩ 60
      = .ok ⟨[.finite 0], [.finite 0], [.finite 550], [0]⟩ := by
  simp only [calculateSatellitePositions]
  rw [if_neg (by norm_num)]
  rw [tg_eval_single]
  simp [constSample]

/-- Claim C7, amended: calculateSatellitePositions validates nothing:
no InvalidTimeSpec error exists.  A zero step fails with the raw
ZeroDivisionError from the num_steps computation; any nonzero step,
also with end at or before start, succeeds and returns
int(total_seconds / time_step) + 1 grid points, clamped at zero. -/
theorem calculatePositions_no_timeSpec_validation (pos : ℚ → GeoSample)
    (s e : DateTime) (step : ℚ) :
    (step = 0 → calculateSatellitePositions pos s e step = .error "division by zero") ∧
    (step ≠ 0 → ∃ out, calculateSatellitePositions pos s e step = .ok out ∧
      out.times = timeGrid s e step ∧
      out.times.length = (pyInt ((e.toSeconds - s.toSeconds) / step) + 1).toNat) := by
  constructor
  · intro h
    simp [calculateSatellitePositions, h]
  · intro h
    refine ⟨⟨(timeGrid s e step).map (fun t => (pos t).lat),
             (timeGrid s e step).map (fun t => (pos t).lon),
             (timeGrid s e step).map (fun t => (pos t).alt),
             timeGrid s e step⟩, ?_, rfl, ?_⟩
    · simp [calculateSatellitePositions, h]
    · simp only [timeGrid, List.length_map, List.length_range]

/-- Claim C7, witness: the nonzero-step branch at a degenerate window
whose end equals its start. -/
theorem calculatePositions_no_timeSpec_validation_witness :
    ((60 : ℚ) ≠ 0) ∧
    (∃ out, calculateSatellitePositions constSample ⟨0, 0⟩ ⟨0, 0⟩ 60 = .ok out ∧
      out.times = timeGrid ⟨0, 0⟩ ⟨0, 0⟩ 60 ∧
      out.times.length
        = (pyInt ((DateTime.toSeconds ⟨0, 0⟩ - DateTime.toSeconds ⟨0, 0⟩) / 60) + 1).toNat) :=
  ⟨by norm_num,
    (calculatePositions_no_timeSpec_validation constSample ⟨0, 0⟩ ⟨0, 0⟩ 60).2 (by norm_num)⟩

/-! ### Claim C5 -/

/-- Claim C5: after every successful run, the latitude, longitude and
altitude arrays have the same length as the stored time array, and the
sample at index i of each array is the corresponding component of the
subpoint model applied to the instant at index i of the grid. -/
theorem positions_parallel_arrays (pos : ℚ → GeoSample) (s e : DateTime)
    (step : ℚ) (out : SatState)
    (hok : calculateSatellitePositions pos s e step = .ok out) :
    out.latitudes.length = out.times.length ∧
    out.longitudes.length = out.times.length ∧
    out.altitudes.length = out.times.length ∧
    ∀ (i : ℕ) (h : i < out.times.length),
      out.latitudes[i]? = some (pos out.times[i]).lat ∧
      out.longitudes[i]? = some (pos out.times[i]).lon ∧
      out.altitudes[i]? = some (pos out.times[i]).alt := by
  by_cases hstep : step = 0
  · simp [calculateSatellitePositions, hstep] at hok
  · simp only [calculateSatellitePositions, if_neg hstep, Except.ok.injEq] at hok
    subst hok
    refine ⟨by simp, by simp, by simp, ?_⟩
    intro i h
    simp only [List.length_map] at h ⊢
    simp [List.getElem?_map, List.getElem?_eq_getElem h]

/-- Claim C5, witness: the concrete two-point run. -/
theorem positions_parallel_arrays_witness :
    calculateSatellitePositions constSample ⟨0, 0⟩ ⟨1, 0⟩ 60 = .ok twoPointState ∧
    (twoPointState.latitudes.length = twoPointState.times.length ∧
     twoPointState.longitudes.length = twoPointState.times.length ∧
     twoPointState.altitudes.length = twoPointState.times.length ∧
     ∀ (i : ℕ) (h : i < twoPointState.times.length),
       twoPointState.latitudes[i]? = some (constSample twoPointState.times[i]).lat ∧
       twoPointState.longitudes[i]? = some (constSample twoPointState.times[i]).lon ∧
       twoPointState.altitudes[i]? = some (constSample twoPointState.times[i]).alt) :=
  ⟨calc_eval_two,
    positions_parallel_arrays constSample ⟨0, 0⟩ ⟨1, 0⟩ 60 twoPointState calc_eval_two⟩

/-! ### Claim C9 -/

/-- Claim C9, counterexample: a subpoint model producing NaN in every
component still yields a successful run whose arrays hold the NaN
samples: no finiteness check exists and no PropagationError is
raised. -/
theorem positions_nan_not_rejected_counterexample :
    calculateSatellitePositions nanSample ⟨0, 0⟩ ⟨0, 0⟩ 60
      = .ok ⟨[.nan], [.nan], [.nan], [0]⟩ := by
  simp only [calculateSatellitePositions]
  rw [if_neg (by norm_num)]
  rw [tg_eval_single]
  simp [nanSample]

/-- Claim C9, amended: the stored samples are exactly the subpoint
model outputs, so whenever that model keeps latitudes in [-90, 90] and
longitudes in (-180, 180], every stored sample lies in those ranges;
the code itself adds no range or finiteness check (see the
counterexample for the NaN case). -/
theorem positions_range_when_model_in_range (pos : ℚ → GeoSample) (s e : DateTime)
    (step : ℚ) (out : SatState)
    (hok : calculateSatellitePositions pos s e step = .ok out)
    (hlat : ∀ t, latOK (pos t).lat) (hlon : ∀ t, lonOK (pos t).lon) :
    (∀ v ∈ out.latitudes, latOK v) ∧ (∀ v ∈ out.longitudes, lonOK v) := by
  by_cases hstep : step = 0
  · simp [calculateSatellitePositions, hstep] at hok
  · simp only [calculateSatellitePositions, if_neg hstep, Except.ok.injEq] at hok
    subst hok
    constructor
    · intro v hv
      simp only [List.mem_map] at hv
      obtain ⟨t, _, rfl⟩ := hv
      exact hlat t
    · intro v hv
      simp only [List.mem_map] at hv
      obtain ⟨t, _, rfl⟩ := hv
      exact hlon t

/-- Claim C9, witness: the constant model at latitude 0, longitude 0
satisfies the ranges, and so do both stored samples of the concrete
two-point run. -/
theorem positions_range_when_model_in_range_witness :
    (calculateSatellitePositions constSample ⟨0, 0⟩ ⟨1, 0⟩ 60 = .ok twoPointState ∧
     (∀ t, latOK (constSample t).lat) ∧ (∀ t, lonOK (constSample t).lon)) ∧
    ((∀ v ∈ twoPointState.latitudes, latOK v) ∧
     (∀ v ∈ twoPointState.longitudes, lonOK v)) :=
  ⟨⟨calc_eval_two, fun _ => by norm_num [constSample, latOK],
      fun _ => by norm_num [constSample, lonOK]⟩,
    positions_range_when_model_in_range constSample ⟨0, 0⟩ ⟨1, 0⟩ 60 twoPointState
      calc_eval_two (fun _ => by norm_num [constSample, latOK])
      (fun _ => by norm_num [constSample, lonOK])⟩

/-! ### Claim C6 -/

/-- Claim C6, counterexample: the Schedule constructor accepts a
status array whose value 7 is not a key of the status_enum dict and
raises nothing, storing the arguments verbatim: no InvalidConfiguration
validation and no default-status fill exist. -/
theorem scheduleInit_no_validation_counterexample :
    scheduleInit 0 120 60 [0, 60, 120] [7, 7, 7] [(0, "idle"), (1, "eclipse")]
      = ⟨0, 120, 60, [0, 60, 120], [7, 7, 7], [(0, "idle"), (1, "eclipse")]⟩ ∧
    isKey 7 [(0, "idle"), (1, "eclipse")] = false :=
  ⟨rfl, rfl⟩

/-- Claim C6, amended: the Schedule constructor takes the time and
status arrays ready-made, performs no validation and no
initialization, and stores all six arguments exactly as passed; any
relation between the status values and the status_enum keys, and the
equal-length invariant, hold only if the caller supplies them. -/
theorem scheduleInit_stores_arguments (a b c : ℚ) (t : List ℚ) (st : List ℤ)
    (en : List (ℤ × String)) :
    scheduleInit a b c t st en = ⟨a, b, c, t, st, en⟩ :=
  rfl

/-! ### Claim C8 -/

/-- Claim C8, counterexample: an Eclipse built over a ten-slot
schedule with the inverted index range 5..2 is accepted without any
failure, so no bounds validation of the index range exists. -/
theorem eclipseInit_no_bounds_check_counterexample :
    eclipseInit 0 [] [] [] [5, 2] sched10 = ⟨0, [], [], [], [5, 2], sched10⟩ ∧
    sched10.status.length = 10 ∧ ((2 : ℤ) < 5) :=
  ⟨rfl, rfl, by decide⟩

/-- Claim C8, amended: the Eclipse constructor stores the given index
list and the parent Schedule by reference, without copying the status
array and without validating the index range; invalid ranges are
accepted, and mapping indices back to parent times is left to the
caller. -/
theorem eclipseInit_stores_reference (n : ℤ) (ta : List (String × ℤ))
    (tn : List String) (te : List ℤ) (si : List ℤ) (ops : Schedule) :
    eclipseInit n ta tn te si ops = ⟨n, ta, tn, te, si, ops⟩ ∧
    (eclipseInit n ta tn te si ops).operations = ops ∧
    (eclipseInit n ta tn te si ops).operations.status = ops.status :=
  ⟨rfl, rfl, rfl⟩

end CubeSat
